import Mathlib

set_option maxHeartbeats 1000000
set_option maxRecDepth 40000
set_option linter.unusedVariables false

/-!
Shallow embedding of the two smoke-test scripts `test-chat-api.py` and
`test-imessage-conversion.py`.

Each script builds a payload dictionary of string literals, serializes it
with `json.dumps`, issues one `requests.post` to a fixed URL inside a
`try`/`except Exception` block, and prints either the status code and
response text, or an error line.

Modelling choices, stated once here:
* A Python process run is a function of its command line, environment,
  standard input and of the network; the scripts reference none of the
  first three, and the network is a parameter `net` mapping the request
  given to `requests.post` to either a response or a raised exception
  (any `Exception` subclass, represented by the text of `str(e)`).
* Standard output is the list of strings passed to `print`, in order.
* The `json.dumps` and `json.loads` behaviour of the CPython standard
  library (default options: `ensure_ascii=True`, separators `", "` and
  `": "`, insertion order kept) is embedded for the fragment the scripts
  exercise: JSON objects whose keys and values are strings.  The decoder
  returns `none` on inputs that would decode to lone UTF-16 surrogates,
  which Lean's `Char` cannot represent; such inputs are never produced by
  the encoder.
-/

/-- Python values occurring in the scripts' payload literals.  Keys and
values are kept at this level (rather than as bare `String`s) so that the
fact that every key and value in the sources is a string literal is a
provable statement, not a typing assumption. -/
inductive PyVal where
  | str (s : String)
  | int (n : Int)
deriving DecidableEq

/-- Whether a Python value is a string. -/
def PyVal.isStr : PyVal → Bool
  | .str _ => true
  | .int _ => false

namespace json

/-- Lowercase hexadecimal digit, as produced by the `%04x` format used by
CPython's `json` encoder for `\uXXXX` escapes. -/
def hexDigitChar (n : Nat) : Char :=
  if n < 10 then Char.ofNat (48 + n) else Char.ofNat (87 + n)

/-- Escape of a single character, mirroring CPython's
`json.encoder.py_encode_basestring_ascii` replacement (`ensure_ascii=True`):
the seven two-character escapes of `ESCAPE_DCT`, printable ASCII kept as
is, other characters below `0x10000` as one `\uXXXX` escape, and astral
characters as a UTF-16 surrogate pair of two `\uXXXX` escapes. -/
def escapeChar (c : Char) : List Char :=
  if c = '\\' then ['\\', '\\']
  else if c = '"' then ['\\', '"']
  else if c = '\x08' then ['\\', 'b']
  else if c = '\x0c' then ['\\', 'f']
  else if c = '\n' then ['\\', 'n']
  else if c = '\r' then ['\\', 'r']
  else if c = '\t' then ['\\', 't']
  else if 0x20 ≤ c.toNat ∧ c.toNat ≤ 0x7e then [c]
  else if c.toNat < 0x10000 then
    ['\\', 'u', hexDigitChar (c.toNat / 4096 % 16), hexDigitChar (c.toNat / 256 % 16),
      hexDigitChar (c.toNat / 16 % 16), hexDigitChar (c.toNat % 16)]
  else
    ['\\', 'u', hexDigitChar ((0xd800 + (c.toNat - 0x10000) / 0x400) / 4096 % 16),
      hexDigitChar ((0xd800 + (c.toNat - 0x10000) / 0x400) / 256 % 16),
      hexDigitChar ((0xd800 + (c.toNat - 0x10000) / 0x400) / 16 % 16),
      hexDigitChar ((0xd800 + (c.toNat - 0x10000) / 0x400) % 16),
      '\\', 'u', hexDigitChar ((0xdc00 + (c.toNat - 0x10000) % 0x400) / 4096 % 16),
      hexDigitChar ((0xdc00 + (c.toNat - 0x10000) % 0x400) / 256 % 16),
      hexDigitChar ((0xdc00 + (c.toNat - 0x10000) % 0x400) / 16 % 16),
      hexDigitChar ((0xdc00 + (c.toNat - 0x10000) % 0x400) % 16)]

/-- Escape every character of a string, in order. -/
def escapeList : List Char → List Char
  | [] => []
  | c :: cs => escapeChar c ++ escapeList cs

/-- A JSON string literal: opening quote, escaped contents, closing quote. -/
def encodeStringChars (s : List Char) : List Char :=
  '"' :: (escapeList s ++ ['"'])

/-- The string used for a key in a JSON object: CPython coerces non-string
keys (here, integers) to their `repr`. -/
def keyString : PyVal → String
  | .str s => s
  | .int n => toString n

/-- Serialization of a value position. -/
def valueChars : PyVal → List Char
  | .str s => encodeStringChars s.data
  | .int n => (toString n).data

/-- One `"key": value` member, with CPython's default `": "` separator. -/
def itemChars (kv : PyVal × PyVal) : List Char :=
  encodeStringChars (keyString kv.1).data ++ ':' :: ' ' :: valueChars kv.2

/-- Members joined with CPython's default `", "` item separator. -/
def joinItems : List (List Char) → List Char
  | [] => []
  | [x] => x
  | x :: y :: tl => x ++ ',' :: ' ' :: joinItems (y :: tl)

/-- Character stream of `json.dumps` applied to a dict literal, in
insertion order. -/
def dumpsChars (obj : List (PyVal × PyVal)) : List Char :=
  '\x7b' :: (joinItems (obj.map itemChars) ++ ['\x7d'])

/-- CPython's `json.dumps` with default options, on an object of the
values above, keys in insertion order. -/
def dumps (obj : List (PyVal × PyVal)) : String :=
  ⟨dumpsChars obj⟩

/-- Value of one hexadecimal digit, upper or lower case accepted as by
CPython's `int(s, 16)`. -/
def hexVal (c : Char) : Option Nat :=
  if 48 ≤ c.toNat ∧ c.toNat ≤ 57 then some (c.toNat - 48)
  else if 97 ≤ c.toNat ∧ c.toNat ≤ 102 then some (c.toNat - 87)
  else if 65 ≤ c.toNat ∧ c.toNat ≤ 70 then some (c.toNat - 55)
  else none

/-- Value of a four-digit hexadecimal escape body. -/
def hex4val (a b c d : Char) : Option Nat :=
  match hexVal a, hexVal b, hexVal c, hexVal d with
  | some x, some y, some z, some w => some (4096 * x + 256 * y + 16 * z + w)
  | _, _, _, _ => none

/-- The `BACKSLASH` table of CPython's `json.decoder`: two-character
escapes other than `\uXXXX`. -/
def unescapeChar (c : Char) : Option Char :=
  if c = '"' then some '"'
  else if c = '\\' then some '\\'
  else if c = '/' then some '/'
  else if c = 'b' then some '\x08'
  else if c = 'f' then some '\x0c'
  else if c = 'n' then some '\n'
  else if c = 'r' then some '\r'
  else if c = 't' then some '\t'
  else none

/-- One scanned element of a JSON string body: either an already-decoded
character (a literal or a two-character escape) or the 16-bit value of one
`\uXXXX` escape, kept undecoded so that textually adjacent escapes can be
recombined as a UTF-16 surrogate pair, exactly as
`json.decoder.py_scanstring` pairs `\uXXXX\uXXXX`. -/
inductive JUnit where
  | chr (c : Char)
  | unit (n : Nat)
deriving DecidableEq

/-- First pass of the string body scan of `json.decoder.py_scanstring` in
strict mode: literal characters up to the closing quote (control
characters rejected), two-character escapes, and `\uXXXX` escapes kept as
`JUnit.unit` values. -/
def scanUnits : List Char → Option (List JUnit × List Char)
  | [] => none
  | c :: rest =>
    if c = '"' then some ([], rest)
    else if c = '\\' then
      match rest with
      | [] => none
      | e :: rest1 =>
        if e = 'u' then
          match rest1 with
          | a :: b :: c2 :: d :: rest2 =>
            match hex4val a b c2 d with
            | some n =>
              match scanUnits rest2 with
              | some (us, r) => some (.unit n :: us, r)
              | none => none
            | none => none
          | _ => none
        else
          match unescapeChar e with
          | some u =>
            match scanUnits rest1 with
            | some (us, r) => some (.chr u :: us, r)
            | none => none
          | none => none
    else if c.toNat < 0x20 then none
    else
      match scanUnits rest with
      | some (us, r) => some (.chr c :: us, r)
      | none => none

/-- Second pass: recombine a textually adjacent `\uXXXX\uXXXX` high/low
surrogate pair into one character, as `py_scanstring` does.  A `\uXXXX`
escape that would leave a lone surrogate in the result yields `none`
(CPython keeps the lone surrogate in its `str`, which Lean's `Char`
cannot hold — such sequences never arise from `dumps`). -/
def combineUnits : List JUnit → Option (List Char)
  | [] => some []
  | .chr c :: tl =>
    match combineUnits tl with
    | some cs => some (c :: cs)
    | none => none
  | .unit n :: tl =>
    if 0xd800 ≤ n ∧ n ≤ 0xdbff then
      match tl with
      | .unit m :: tl2 =>
        if 0xdc00 ≤ m ∧ m ≤ 0xdfff then
          match combineUnits tl2 with
          | some cs => some (Char.ofNat (0x10000 + 0x400 * (n - 0xd800) + (m - 0xdc00)) :: cs)
          | none => none
        else none
      | _ => none
    else if 0xdc00 ≤ n ∧ n ≤ 0xdfff then none
    else
      match combineUnits tl with
      | some cs => some (Char.ofNat n :: cs)
      | none => none

/-- Body of a JSON string after its opening quote: scan, then recombine
surrogate pairs.  Returns the decoded characters and the input remaining
after the closing quote. -/
def scanString (l : List Char) : Option (List Char × List Char) :=
  match scanUnits l with
  | some (us, rest) =>
    match combineUnits us with
    | some cs => some (cs, rest)
    | none => none
  | none => none

/-- The scan image of one encoded character: the `JUnit` sequence that
`scanUnits` recovers from `escapeChar c`.  Mirrors the branch structure of
`escapeChar`. -/
def unitsOf (c : Char) : List JUnit :=
  if c = '\\' then [.chr '\\']
  else if c = '"' then [.chr '"']
  else if c = '\x08' then [.chr '\x08']
  else if c = '\x0c' then [.chr '\x0c']
  else if c = '\n' then [.chr '\n']
  else if c = '\r' then [.chr '\r']
  else if c = '\t' then [.chr '\t']
  else if 0x20 ≤ c.toNat ∧ c.toNat ≤ 0x7e then [.chr c]
  else if c.toNat < 0x10000 then [.unit c.toNat]
  else [.unit (0xd800 + (c.toNat - 0x10000) / 0x400),
        .unit (0xdc00 + (c.toNat - 0x10000) % 0x400)]

/-- The scan image of a whole encoded string body. -/
def unitsList : List Char → List JUnit
  | [] => []
  | c :: cs => unitsOf c ++ unitsList cs

/-- JSON whitespace skipping, CPython's `WHITESPACE` class `[ \t\n\r]*`. -/
def skipWs : List Char → List Char
  | [] => []
  | c :: rest =>
    if c = ' ' ∨ c = '\t' ∨ c = '\n' ∨ c = '\r' then skipWs rest else c :: rest

/-- A JSON string token: an opening quote followed by a scanned body. -/
def parseStringTok : List Char → Option (String × List Char)
  | [] => none
  | c :: rest =>
    if c = '"' then
      match scanString rest with
      | some (s, r) => some (⟨s⟩, r)
      | none => none
    else none

/-- A colon separator, possibly preceded by whitespace, as accepted
between key and value by CPython's `json.decoder.JSONObject`. -/
def expectColon (l : List Char) : Option (List Char) :=
  match skipWs l with
  | ':' :: r => some r
  | _ => none

/-- One `"key": "value"` member as read by `JSONObject`: whitespace, key
string, colon, whitespace, value (here a string, the only value kind the
scripts' payloads contain). -/
def parseMember (l : List Char) : Option ((String × String) × List Char) :=
  (parseStringTok (skipWs l)).bind fun kr =>
    (expectColon kr.2).bind fun r2 =>
      (parseStringTok (skipWs r2)).map fun vr => ((kr.1, vr.1), vr.2)

/-- The member loop of `JSONObject`: after each member either `,` and
further members or the closing brace.  `fuel` bounds the recursion by the
number of members and is in practice the input length. -/
def parseMembers : Nat → List Char → Option (List (String × String) × List Char)
  | 0, _ => none
  | fuel + 1, l =>
    match parseMember l with
    | none => none
    | some (kv, r3) =>
      match skipWs r3 with
      | ',' :: r4 =>
        match parseMembers fuel r4 with
        | some (ps, r5) => some (kv :: ps, r5)
        | none => none
      | '\x7d' :: r4 => some ([kv], r4)
      | _ => none

/-- The inside of a JSON object after its opening brace, as read by
`JSONObject`: either an immediate closing brace (empty object) or the
member loop; in both cases only whitespace may follow the object, as
`json.loads` rejects trailing data. -/
def loadsBody (fuel : Nat) (r : List Char) : Option (List (String × String)) :=
  match skipWs r with
  | '\x7d' :: r2 => if skipWs r2 = [] then some [] else none
  | _ =>
    match parseMembers fuel r with
    | some (ps, rest) => if skipWs rest = [] then some ps else none
    | none => none

/-- CPython's `json.loads` on the fragment the scripts produce: a single
JSON object with string keys and string values, surrounding whitespace
allowed, trailing data rejected. -/
def loads (s : String) : Option (List (String × String)) :=
  match skipWs s.data with
  | '\x7b' :: r => loadsBody (s.data.length + 1) r
  | _ => none

end json

/-- The part of a `requests.Response` the scripts read. -/
structure Response where
  status_code : Nat
  text : String
deriving DecidableEq

/-- Outcome of evaluating a Python expression that may raise: a value, or
a raised exception (any `Exception` subclass) carrying `str(e)`. -/
inductive PyResult (α : Type) where
  | ok (a : α)
  | raised (msg : String)
deriving DecidableEq

/-- The arguments a script hands to `requests.post`: method, target URL,
`data=` body, and `headers=` dictionary. -/
structure Request where
  method : String
  url : String
  body : String
  headers : List (String × String)
deriving DecidableEq

/-- Observable result of one script run: the strings printed to standard
output in order, the requests handed to `requests.post` in order, the
process exit status, and the exception escaping the process, if any. -/
structure ScriptResult where
  stdout : List String
  requestsSent : List Request
  exitCode : Nat
  uncaughtException : Option String
deriving DecidableEq

namespace TestChatApi

/-- Transcribed from `test-chat-api.py`: the target URL constant. -/
def url : String := "http://localhost:5130/api/chat"

/-- Transcribed from `test-chat-api.py`: the payload dict literal, in
source order. -/
def payload : List (PyVal × PyVal) :=
  [(.str "userId", .str "user-123"),
   (.str "message", .str "Hello, this is a test message to verify IMessage conversion"),
   (.str "systemPrompt", .str "You are a helpful assistant.")]

/-- Transcribed from `test-chat-api.py`: the headers dict literal. -/
def headers : List (String × String) := [("Content-Type", "application/json")]

/-- The single request the script builds at its `requests.post` call. -/
def request : Request :=
  { method := "POST", url := url, body := json.dumps payload, headers := headers }

/-- Transcribed from `test-chat-api.py`: the whole script run.  `argv`,
`env` and `stdin` are the process inputs, none of which the source
references; `net` is the network.  The `try` body posts once and prints
two lines; `except Exception as e` prints one `Error:` line; either way
the process terminates normally. -/
def run (argv : List String) (env : List (String × String)) (stdin : String)
    (net : Request → PyResult Response) : ScriptResult :=
  match net request with
  | .ok response =>
    { stdout := ["Status Code: " ++ toString response.status_code,
                 "Response: " ++ response.text],
      requestsSent := [request], exitCode := 0, uncaughtException := none }
  | .raised e =>
    { stdout := ["Error: " ++ e],
      requestsSent := [request], exitCode := 0, uncaughtException := none }

end TestChatApi

namespace TestImessageConversion

/-- Transcribed from `test-imessage-conversion.py`: the target URL
constant. -/
def url : String := "http://localhost:5130/api/chat"

/-- Transcribed from `test-imessage-conversion.py`: the payload dict
literal, in source order. -/
def payload : List (PyVal × PyVal) :=
  [(.str "message", .str "Hello, this is a test message to verify IMessage conversion"),
   (.str "conversationId", .str "test-conversation-456")]

/-- Transcribed from `test-imessage-conversion.py`: the headers dict
literal. -/
def headers : List (String × String) := [("Content-Type", "application/json")]

/-- The single request the script builds at its `requests.post` call. -/
def request : Request :=
  { method := "POST", url := url, body := json.dumps payload, headers := headers }

/-- Transcribed from `test-imessage-conversion.py`: the whole script run,
with the same reading as `TestChatApi.run`. -/
def run (argv : List String) (env : List (String × String)) (stdin : String)
    (net : Request → PyResult Response) : ScriptResult :=
  match net request with
  | .ok response =>
    { stdout := ["Status Code: " ++ toString response.status_code,
                 "Response: " ++ response.text],
      requestsSent := [request], exitCode := 0, uncaughtException := none }
  | .raised e =>
    { stdout := ["Error: " ++ e],
      requestsSent := [request], exitCode := 0, uncaughtException := none }

end TestImessageConversion

/-- Modelled from the spec: the one-shot request sender of section 4.1,
which both scripts are instances of.  Given a payload, it performs a
single synchronous POST of the JSON-serialized payload to the fixed URL
with the JSON content-type header; on success it prints the numeric
status and raw body, on any transport failure it prints one `Error:`
line, and in both cases the process terminates normally. -/
def sendOnce (payload : List (PyVal × PyVal)) (argv : List String)
    (env : List (String × String)) (stdin : String)
    (net : Request → PyResult Response) : ScriptResult :=
  let req : Request :=
    { method := "POST", url := "http://localhost:5130/api/chat",
      body := json.dumps payload, headers := [("Content-Type", "application/json")] }
  match net req with
  | .ok r =>
    { stdout := ["Status Code: " ++ toString r.status_code, "Response: " ++ r.text],
      requestsSent := [req], exitCode := 0, uncaughtException := none }
  | .raised e =>
    { stdout := ["Error: " ++ e],
      requestsSent := [req], exitCode := 0, uncaughtException := none }

namespace json

/-- Every Lean character is a Unicode scalar value: below `0x110000` and
outside the surrogate range. -/
theorem char_toNat_facts (c : Char) :
    c.toNat < 0x110000 ∧ ¬(0xd800 ≤ c.toNat ∧ c.toNat ≤ 0xdfff) := by
  have h := c.valid
  simp only [UInt32.isValidChar, Nat.isValidChar] at h
  simp only [Char.toNat]
  omega

/-- `hexVal` inverts `hexDigitChar` on one digit. -/
theorem hexVal_hexDigitChar : ∀ m : Fin 16, hexVal (hexDigitChar m.val) = some m.val := by
  decide

/-- `hex4val` inverts the four-digit encoding of any value below `0x10000`. -/
theorem hex4val_hexDigits (n : Nat) (h : n < 0x10000) :
    hex4val (hexDigitChar (n / 4096 % 16)) (hexDigitChar (n / 256 % 16))
      (hexDigitChar (n / 16 % 16)) (hexDigitChar (n % 16)) = some n := by
  have ha := hexVal_hexDigitChar ⟨n / 4096 % 16, Nat.mod_lt _ (by omega)⟩
  have hb := hexVal_hexDigitChar ⟨n / 256 % 16, Nat.mod_lt _ (by omega)⟩
  have hc := hexVal_hexDigitChar ⟨n / 16 % 16, Nat.mod_lt _ (by omega)⟩
  have hd := hexVal_hexDigitChar ⟨n % 16, Nat.mod_lt _ (by omega)⟩
  simp only at ha hb hc hd
  simp only [hex4val, ha, hb, hc, hd, Option.some.injEq]
  omega

/-- Scanning a `\uXXXX` escape prepends the escaped value as one unit. -/
theorem scanUnits_uEscape (a b c2 d : Char) (n : Nat) (rest : List Char)
    (h : hex4val a b c2 d = some n) :
    scanUnits ('\\' :: 'u' :: a :: b :: c2 :: d :: rest) =
      match scanUnits rest with
      | some (us, r) => some (.unit n :: us, r)
      | none => none := by
  rw [scanUnits.eq_def]
  simp [h]

/-- Scanning the escape of one character prepends its unit image. -/
theorem scanUnits_escapeChar (c : Char) (u : List Char) :
    scanUnits (escapeChar c ++ u) =
      match scanUnits u with
      | some (us, r) => some (unitsOf c ++ us, r)
      | none => none := by
  have hv := char_toNat_facts c
  by_cases h1 : c = '\\'
  · subst h1; rw [scanUnits.eq_def]; rfl
  by_cases h2 : c = '"'
  · subst h2; rw [scanUnits.eq_def]; rfl
  by_cases h3 : c = '\x08'
  · subst h3; rw [scanUnits.eq_def]; rfl
  by_cases h4 : c = '\x0c'
  · subst h4; rw [scanUnits.eq_def]; rfl
  by_cases h5 : c = '\n'
  · subst h5; rw [scanUnits.eq_def]; rfl
  by_cases h6 : c = '\r'
  · subst h6; rw [scanUnits.eq_def]; rfl
  by_cases h7 : c = '\t'
  · subst h7; rw [scanUnits.eq_def]; rfl
  by_cases h8 : 0x20 ≤ c.toNat ∧ c.toNat ≤ 0x7e
  · have he : escapeChar c = [c] := by
      simp only [escapeChar, if_neg h1, if_neg h2, if_neg h3, if_neg h4, if_neg h5,
        if_neg h6, if_neg h7, if_pos h8]
    have hu : unitsOf c = [.chr c] := by
      simp only [unitsOf, if_neg h1, if_neg h2, if_neg h3, if_neg h4, if_neg h5,
        if_neg h6, if_neg h7, if_pos h8]
    rw [he, hu]
    simp only [List.singleton_append]
    rw [scanUnits.eq_def]
    simp only [if_neg h2, if_neg h1, if_neg (show ¬(c.toNat < 32) by omega)]
  by_cases h9 : c.toNat < 0x10000
  · have he : escapeChar c =
        ['\\', 'u', hexDigitChar (c.toNat / 4096 % 16), hexDigitChar (c.toNat / 256 % 16),
          hexDigitChar (c.toNat / 16 % 16), hexDigitChar (c.toNat % 16)] := by
      simp only [escapeChar, if_neg h1, if_neg h2, if_neg h3, if_neg h4, if_neg h5,
        if_neg h6, if_neg h7, if_neg h8, if_pos h9]
    have hu : unitsOf c = [.unit c.toNat] := by
      simp only [unitsOf, if_neg h1, if_neg h2, if_neg h3, if_neg h4, if_neg h5,
        if_neg h6, if_neg h7, if_neg h8, if_pos h9]
    rw [he, hu]
    simp only [List.cons_append, List.nil_append]
    rw [scanUnits_uEscape _ _ _ _ _ _ (hex4val_hexDigits c.toNat (by omega))]
  · have he : escapeChar c =
        ['\\', 'u', hexDigitChar ((0xd800 + (c.toNat - 0x10000) / 0x400) / 4096 % 16),
          hexDigitChar ((0xd800 + (c.toNat - 0x10000) / 0x400) / 256 % 16),
          hexDigitChar ((0xd800 + (c.toNat - 0x10000) / 0x400) / 16 % 16),
          hexDigitChar ((0xd800 + (c.toNat - 0x10000) / 0x400) % 16),
          '\\', 'u', hexDigitChar ((0xdc00 + (c.toNat - 0x10000) % 0x400) / 4096 % 16),
          hexDigitChar ((0xdc00 + (c.toNat - 0x10000) % 0x400) / 256 % 16),
          hexDigitChar ((0xdc00 + (c.toNat - 0x10000) % 0x400) / 16 % 16),
          hexDigitChar ((0xdc00 + (c.toNat - 0x10000) % 0x400) % 16)] := by
      simp only [escapeChar, if_neg h1, if_neg h2, if_neg h3, if_neg h4, if_neg h5,
        if_neg h6, if_neg h7, if_neg h8, if_neg h9]
    have hu : unitsOf c = [.unit (0xd800 + (c.toNat - 0x10000) / 0x400),
        .unit (0xdc00 + (c.toNat - 0x10000) % 0x400)] := by
      simp only [unitsOf, if_neg h1, if_neg h2, if_neg h3, if_neg h4, if_neg h5,
        if_neg h6, if_neg h7, if_neg h8, if_neg h9]
    rw [he, hu]
    simp only [List.cons_append, List.nil_append]
    rw [scanUnits_uEscape _ _ _ _ _ _ (hex4val_hexDigits (0xd800 + (c.toNat - 0x10000) / 0x400) (by omega)),
      scanUnits_uEscape _ _ _ _ _ _ (hex4val_hexDigits (0xdc00 + (c.toNat - 0x10000) % 0x400) (by omega))]
    cases hsu : scanUnits u <;> simp [hsu]

end json

namespace json

/-- Recombining the unit image of one character prepends that character:
surrogate pairs produced by the encoder are recombined to the original
astral character, and scalar units are decoded directly. -/
theorem combineUnits_unitsOf (c : Char) (us : List JUnit) :
    combineUnits (unitsOf c ++ us) =
      match combineUnits us with
      | some cs => some (c :: cs)
      | none => none := by
  have hv := char_toNat_facts c
  by_cases h1 : c = '\\'
  · subst h1; rw [combineUnits.eq_def]; rfl
  by_cases h2 : c = '"'
  · subst h2; rw [combineUnits.eq_def]; rfl
  by_cases h3 : c = '\x08'
  · subst h3; rw [combineUnits.eq_def]; rfl
  by_cases h4 : c = '\x0c'
  · subst h4; rw [combineUnits.eq_def]; rfl
  by_cases h5 : c = '\n'
  · subst h5; rw [combineUnits.eq_def]; rfl
  by_cases h6 : c = '\r'
  · subst h6; rw [combineUnits.eq_def]; rfl
  by_cases h7 : c = '\t'
  · subst h7; rw [combineUnits.eq_def]; rfl
  by_cases h8 : 0x20 ≤ c.toNat ∧ c.toNat ≤ 0x7e
  · have hu : unitsOf c = [.chr c] := by
      simp only [unitsOf, if_neg h1, if_neg h2, if_neg h3, if_neg h4, if_neg h5,
        if_neg h6, if_neg h7, if_pos h8]
    rw [hu]; rw [combineUnits.eq_def]; rfl
  by_cases h9 : c.toNat < 0x10000
  · have hu : unitsOf c = [.unit c.toNat] := by
      simp only [unitsOf, if_neg h1, if_neg h2, if_neg h3, if_neg h4, if_neg h5,
        if_neg h6, if_neg h7, if_neg h8, if_pos h9]
    rw [hu]
    simp only [List.singleton_append]
    rw [combineUnits.eq_def]
    simp only [if_neg (show ¬(0xd800 ≤ c.toNat ∧ c.toNat ≤ 0xdbff) by omega),
      if_neg (show ¬(0xdc00 ≤ c.toNat ∧ c.toNat ≤ 0xdfff) by omega)]
    rw [Char.ofNat_toNat]
  · have hu : unitsOf c = [.unit (0xd800 + (c.toNat - 0x10000) / 0x400),
        .unit (0xdc00 + (c.toNat - 0x10000) % 0x400)] := by
      simp only [unitsOf, if_neg h1, if_neg h2, if_neg h3, if_neg h4, if_neg h5,
        if_neg h6, if_neg h7, if_neg h8, if_neg h9]
    rw [hu]
    simp only [List.cons_append, List.nil_append]
    rw [combineUnits.eq_def]
    simp only [if_pos (show 0xd800 ≤ 0xd800 + (c.toNat - 0x10000) / 0x400 ∧
        0xd800 + (c.toNat - 0x10000) / 0x400 ≤ 0xdbff by omega),
      if_pos (show 0xdc00 ≤ 0xdc00 + (c.toNat - 0x10000) % 0x400 ∧
        0xdc00 + (c.toNat - 0x10000) % 0x400 ≤ 0xdfff by omega)]
    rw [show 0x10000 + 0x400 * (0xd800 + (c.toNat - 0x10000) / 0x400 - 0xd800) +
        (0xdc00 + (c.toNat - 0x10000) % 0x400 - 0xdc00) = c.toNat by omega]
    rw [Char.ofNat_toNat]

/-- Scanning a whole encoded body up to the closing quote yields the unit
image of the body and the input past the quote. -/
theorem scanUnits_escapeList (s u : List Char) :
    scanUnits (escapeList s ++ '"' :: u) = some (unitsList s, u) := by
  induction s generalizing u with
  | nil => rw [scanUnits.eq_def]; rfl
  | cons c cs ih =>
    show scanUnits ((escapeChar c ++ escapeList cs) ++ '"' :: u) = _
    rw [List.append_assoc, scanUnits_escapeChar, ih]
    rfl

/-- Recombining the unit image of a whole body yields the body. -/
theorem combineUnits_unitsList (s : List Char) :
    combineUnits (unitsList s) = some s := by
  induction s with
  | nil => rfl
  | cons c cs ih =>
    show combineUnits (unitsOf c ++ unitsList cs) = _
    rw [combineUnits_unitsOf, ih]

/-- The string-body scanner inverts the encoder on any body. -/
theorem scanString_escapeList (s u : List Char) :
    scanString (escapeList s ++ '"' :: u) = some (s, u) := by
  rw [scanString, scanUnits_escapeList]
  simp [combineUnits_unitsList]

/-- The string-token reader inverts `encodeStringChars` on any string. -/
theorem parseStringTok_encode (s : String) (u : List Char) :
    parseStringTok (encodeStringChars s.data ++ u) = some (s, u) := by
  show parseStringTok (('"' :: (escapeList s.data ++ ['"'])) ++ u) = _
  rw [List.cons_append, List.append_assoc, List.singleton_append]
  rw [parseStringTok.eq_def]
  simp only [if_pos rfl]
  rw [scanString_escapeList]
  simp

end json

namespace json

/-- Whitespace skipping stops at a character outside the class. -/
theorem skipWs_nonWs (c : Char) (z : List Char)
    (h : ¬(c = ' ' ∨ c = '\t' ∨ c = '\n' ∨ c = '\r')) : skipWs (c :: z) = c :: z := by
  rw [skipWs.eq_def]
  simp only [if_neg h]

/-- Whitespace skipping consumes a leading space. -/
theorem skipWs_space (z : List Char) : skipWs (' ' :: z) = skipWs z := by
  rw [skipWs.eq_def]
  simp

/-- An encoded string literal starts with a quote, not whitespace. -/
theorem skipWs_encode (s u : List Char) :
    skipWs (encodeStringChars s ++ u) = encodeStringChars s ++ u := by
  show skipWs ('"' :: ((escapeList s ++ ['"']) ++ u)) = '"' :: ((escapeList s ++ ['"']) ++ u)
  exact skipWs_nonWs _ _ (by decide)

/-- A colon head satisfies `expectColon`. -/
theorem expectColon_cons (z : List Char) : expectColon (':' :: z) = some z := by
  rw [expectColon, skipWs_nonWs _ _ (by decide)]
  rfl

/-- `parseMember` inverts the encoding of one `"key": "value"` member. -/
theorem parseMember_encode (k v : String) (Y : List Char) :
    parseMember (encodeStringChars k.data ++ ':' :: ' ' :: (encodeStringChars v.data ++ Y)) =
      some ((k, v), Y) := by
  rw [parseMember, skipWs_encode, parseStringTok_encode]
  simp only [Option.some_bind]
  rw [expectColon_cons]
  simp only [Option.some_bind]
  rw [skipWs_space, skipWs_encode, parseStringTok_encode]
  rfl

end json

namespace json

/-- A leading space is invisible to one member parse. -/
theorem parseMember_space (z : List Char) : parseMember (' ' :: z) = parseMember z := by
  rw [parseMember, parseMember, skipWs_space]

/-- A leading space is invisible to the member loop. -/
theorem parseMembers_space (f : Nat) (z : List Char) :
    parseMembers f (' ' :: z) = parseMembers f z := by
  cases f with
  | zero => rfl
  | succ g => rw [parseMembers.eq_2, parseMembers.eq_2, parseMember_space]

/-- The member loop after a member followed by a comma and a space. -/
theorem parseMembers_after_comma (f : Nat) (kv : String × String) (Z l : List Char)
    (h : parseMember l = some (kv, ',' :: ' ' :: Z)) :
    parseMembers (f + 1) l =
      match parseMembers f (' ' :: Z) with
      | some (ps, r5) => some (kv :: ps, r5)
      | none => none := by
  rw [parseMembers.eq_2, h]
  rfl

/-- The member loop after the final member, at the closing brace. -/
theorem parseMembers_last (f : Nat) (kv : String × String) (Z l : List Char)
    (h : parseMember l = some (kv, '\x7d' :: Z)) :
    parseMembers (f + 1) l = some ([kv], Z) := by
  rw [parseMembers.eq_2, h]
  rfl

/-- The member loop inverts the encoder on any nonempty member list with
enough fuel. -/
theorem parseMembers_items (ps : List (String × String)) (fuel : Nat) (tail : List Char)
    (hne : ps ≠ []) (hf : ps.length ≤ fuel) :
    parseMembers fuel
      ((joinItems ((ps.map fun p => (PyVal.str p.1, PyVal.str p.2)).map itemChars)) ++ '\x7d' :: tail) =
      some (ps, tail) := by
  induction ps generalizing fuel tail with
  | nil => exact absurd rfl hne
  | cons hd tl ih =>
    obtain ⟨k, v⟩ := hd
    cases fuel with
    | zero => simp at hf
    | succ f =>
      cases tl with
      | nil =>
        have hj : (joinItems ((([((k, v))]).map fun p => (PyVal.str p.1, PyVal.str p.2)).map itemChars)) ++ '\x7d' :: tail
            = encodeStringChars k.data ++ ':' :: ' ' :: (encodeStringChars v.data ++ '\x7d' :: tail) := by
          simp only [List.map_cons, List.map_nil, joinItems, itemChars, keyString, valueChars]
          simp only [List.append_assoc, List.cons_append]
        rw [hj, parseMembers_last f (k, v) tail _ (parseMember_encode k v ('\x7d' :: tail))]
      | cons p2 tl2 =>
        have hj : (joinItems ((((k, v) :: p2 :: tl2).map fun p => (PyVal.str p.1, PyVal.str p.2)).map itemChars)) ++ '\x7d' :: tail
            = encodeStringChars k.data ++ ':' :: ' ' :: (encodeStringChars v.data ++ ',' :: ' ' ::
                ((joinItems (((p2 :: tl2).map fun p => (PyVal.str p.1, PyVal.str p.2)).map itemChars)) ++ '\x7d' :: tail)) := by
          simp only [List.map_cons, joinItems, itemChars, keyString, valueChars]
          simp only [List.append_assoc, List.cons_append]
        rw [hj, parseMembers_after_comma f (k, v) _ _
          (parseMember_encode k v (',' :: ' ' :: ((joinItems (((p2 :: tl2).map fun p => (PyVal.str p.1, PyVal.str p.2)).map itemChars)) ++ '\x7d' :: tail)))]
        rw [parseMembers_space, ih f tail (by simp) (by simp only [List.length_cons] at hf ⊢; omega)]

end json

namespace json

/-- An encoded nonempty member list starts with the opening quote of its
first key. -/
theorem joinItems_map_head (p : String × String) (tl : List (String × String)) :
    ∃ w, joinItems (((p :: tl).map fun q => (PyVal.str q.1, PyVal.str q.2)).map itemChars) =
      '"' :: w := by
  cases tl with
  | nil => exact ⟨_, rfl⟩
  | cons q tl2 => exact ⟨_, rfl⟩

/-- Each member contributes at least one character, so the encoded length
bounds the member count. -/
theorem length_le_joinItems (ps : List (String × String)) :
    ps.length ≤ (joinItems ((ps.map fun p => (PyVal.str p.1, PyVal.str p.2)).map itemChars)).length := by
  induction ps with
  | nil => simp [joinItems]
  | cons p tl ih =>
    cases tl with
    | nil =>
      simp only [List.map_cons, List.map_nil, joinItems, itemChars, keyString, valueChars,
        encodeStringChars, List.length_append, List.length_cons, List.length_nil]
      omega
    | cons q tl2 =>
      simp only [List.map_cons, joinItems, List.length_append, List.length_cons] at ih ⊢
      omega

/-- The object-body reader inverts the encoder on a nonempty member list
with enough fuel. -/
theorem loadsBody_items (ps : List (String × String)) (fuel : Nat)
    (hne : ps ≠ []) (hf : ps.length ≤ fuel) :
    loadsBody fuel ((joinItems ((ps.map fun p => (PyVal.str p.1, PyVal.str p.2)).map itemChars)) ++ ['\x7d']) =
      some ps := by
  cases ps with
  | nil => exact absurd rfl hne
  | cons p tl =>
    obtain ⟨w, hw⟩ := joinItems_map_head p tl
    have hm := parseMembers_items (p :: tl) fuel [] (by simp) hf
    rw [hw] at hm
    simp only [List.cons_append] at hm
    rw [loadsBody, hw]
    simp only [List.cons_append]
    rw [skipWs_nonWs _ _ (by decide), hm]
    rfl

end json

/-- Claim C1: for every HTTP response the server returns, whatever its
status class (2xx, 4xx and 5xx alike, never treated as errors), each
script prints exactly two lines: `Status Code: ` with the numeric status
and `Response: ` with the raw body text, both unmodified. -/
theorem claim_C1 (argv : List String) (env : List (String × String)) (stdin : String)
    (net : Request → PyResult Response) (r : Response)
    (h1 : net TestChatApi.request = .ok r)
    (h2 : net TestImessageConversion.request = .ok r) :
    (TestChatApi.run argv env stdin net).stdout =
      ["Status Code: " ++ toString r.status_code, "Response: " ++ r.text] ∧
    (TestImessageConversion.run argv env stdin net).stdout =
      ["Status Code: " ++ toString r.status_code, "Response: " ++ r.text] := by
  constructor
  · rw [TestChatApi.run, h1]
  · rw [TestImessageConversion.run, h2]

/-- Witness for C1, at scenario 1 of the spec: a 200 response with body
`\x7b"reply":"ok"\x7d` prints exactly the two expected lines. -/
theorem claim_C1_witness :
    ((fun _ => PyResult.ok ⟨200, "\x7b\"reply\":\"ok\"\x7d"⟩ : Request → PyResult Response)
        TestChatApi.request = PyResult.ok ⟨200, "\x7b\"reply\":\"ok\"\x7d"⟩) ∧
    (TestChatApi.run [] [] "" (fun _ => PyResult.ok ⟨200, "\x7b\"reply\":\"ok\"\x7d"⟩)).stdout =
      ["Status Code: 200", "Response: \x7b\"reply\":\"ok\"\x7d"] ∧
    (TestImessageConversion.run [] [] "" (fun _ => PyResult.ok ⟨200, "\x7b\"reply\":\"ok\"\x7d"⟩)).stdout =
      ["Status Code: 200", "Response: \x7b\"reply\":\"ok\"\x7d"] := by
  have h := claim_C1 [] [] "" (fun _ => PyResult.ok ⟨200, "\x7b\"reply\":\"ok\"\x7d"⟩)
    ⟨200, "\x7b\"reply\":\"ok\"\x7d"⟩ rfl rfl
  exact ⟨rfl, h.1.trans (by decide), h.2.trans (by decide)⟩

/-- Claim C2: for every transport failure raised by the POST, each script
catches it, prints as its only output one `Error: ` line with the failure
description, and terminates normally with exit status zero and no
unhandled exception. -/
theorem claim_C2 (argv : List String) (env : List (String × String)) (stdin : String)
    (net : Request → PyResult Response) (e : String)
    (h1 : net TestChatApi.request = .raised e)
    (h2 : net TestImessageConversion.request = .raised e) :
    ((TestChatApi.run argv env stdin net).stdout = ["Error: " ++ e] ∧
      (TestChatApi.run argv env stdin net).exitCode = 0 ∧
      (TestChatApi.run argv env stdin net).uncaughtException = none) ∧
    ((TestImessageConversion.run argv env stdin net).stdout = ["Error: " ++ e] ∧
      (TestImessageConversion.run argv env stdin net).exitCode = 0 ∧
      (TestImessageConversion.run argv env stdin net).uncaughtException = none) := by
  constructor
  · rw [TestChatApi.run, h1]
    exact ⟨rfl, rfl, rfl⟩
  · rw [TestImessageConversion.run, h2]
    exact ⟨rfl, rfl, rfl⟩

/-- Witness for C2, at scenario 2 of the spec: a connection-refused
failure yields a single `Error: ` line and a zero exit status. -/
theorem claim_C2_witness :
    ((fun _ => PyResult.raised "Connection refused" : Request → PyResult Response)
        TestChatApi.request = PyResult.raised "Connection refused") ∧
    (TestChatApi.run [] [] "" (fun _ => PyResult.raised "Connection refused")).stdout =
      ["Error: Connection refused"] ∧
    (TestChatApi.run [] [] "" (fun _ => PyResult.raised "Connection refused")).exitCode = 0 ∧
    (TestImessageConversion.run [] [] "" (fun _ => PyResult.raised "Connection refused")).stdout =
      ["Error: Connection refused"] := by
  have h := claim_C2 [] [] "" (fun _ => PyResult.raised "Connection refused")
    "Connection refused" rfl rfl
  exact ⟨rfl, h.1.1.trans (by decide), h.1.2.1, h.2.1.trans (by decide)⟩

/-- Claim C3: serializing any finite mapping of string keys to string
values with `json.dumps` and parsing the result back with `json.loads`
yields the original mapping. -/
theorem claim_C3 (ps : List (String × String)) :
    json.loads (json.dumps (ps.map fun p => (PyVal.str p.1, PyVal.str p.2))) = some ps := by
  cases ps with
  | nil => rfl
  | cons p tl =>
    rw [json.loads]
    rw [show (json.dumps ((p :: tl).map fun q => (PyVal.str q.1, PyVal.str q.2))).data
        = json.dumpsChars ((p :: tl).map fun q => (PyVal.str q.1, PyVal.str q.2)) from rfl]
    rw [json.dumpsChars]
    rw [json.skipWs_nonWs _ _ (by decide)]
    show json.loadsBody _
      ((json.joinItems (((p :: tl).map fun q => (PyVal.str q.1, PyVal.str q.2)).map json.itemChars)) ++ ['\x7d'])
      = some (p :: tl)
    refine json.loadsBody_items (p :: tl) _ (by simp) ?_
    have h := json.length_le_joinItems (p :: tl)
    simp only [List.length_cons, List.length_append, List.length_nil] at h ⊢
    omega

/-- Claim C4: every request either script issues is a POST to exactly
`http://localhost:5130/api/chat` with exactly the single header
`Content-Type: application/json`. -/
theorem claim_C4 (argv : List String) (env : List (String × String)) (stdin : String)
    (net : Request → PyResult Response) :
    (TestChatApi.run argv env stdin net).requestsSent = [TestChatApi.request] ∧
    TestChatApi.request.method = "POST" ∧
    TestChatApi.request.url = "http://localhost:5130/api/chat" ∧
    TestChatApi.request.headers = [("Content-Type", "application/json")] ∧
    (TestImessageConversion.run argv env stdin net).requestsSent = [TestImessageConversion.request] ∧
    TestImessageConversion.request.method = "POST" ∧
    TestImessageConversion.request.url = "http://localhost:5130/api/chat" ∧
    TestImessageConversion.request.headers = [("Content-Type", "application/json")] := by
  refine ⟨?_, rfl, rfl, rfl, ?_, rfl, rfl, rfl⟩
  · rw [TestChatApi.run]
    cases net TestChatApi.request <;> rfl
  · rw [TestImessageConversion.run]
    cases net TestImessageConversion.request <;> rfl

/-- Claim C5: the body of the second script's request is a JSON object
whose key list is exactly `message`, `conversationId` — no extra keys. -/
theorem claim_C5 :
    (json.loads TestImessageConversion.request.body).map (fun ps => ps.map Prod.fst) =
      some ["message", "conversationId"] := by
  decide

/-- Claim C6: in every execution each script issues at most one request:
the list of requests handed to `requests.post` is the one-element list of
its fixed request, on the success path and on the failure path alike. -/
theorem claim_C6 (argv : List String) (env : List (String × String)) (stdin : String)
    (net : Request → PyResult Response) :
    (TestChatApi.run argv env stdin net).requestsSent.length ≤ 1 ∧
    (TestImessageConversion.run argv env stdin net).requestsSent.length ≤ 1 := by
  constructor
  · rw [TestChatApi.run]
    cases net TestChatApi.request <;> simp
  · rw [TestImessageConversion.run]
    cases net TestImessageConversion.request <;> simp

/-- Claim C7: every key and every value of both scripts' payload literals
is a string. -/
theorem claim_C7 :
    TestChatApi.payload.all (fun kv => kv.1.isStr && kv.2.isStr) = true ∧
    TestImessageConversion.payload.all (fun kv => kv.1.isStr && kv.2.isStr) = true := by
  decide

/-- Claim C8: each script is deterministic in its request: it reads no
command line, environment or standard input, so its behaviour is the same
for any values of those, the request sent is the same in every run, and
two runs differ only if the network's answer to that fixed request
differs. -/
theorem claim_C8 (argv1 argv2 : List String) (env1 env2 : List (String × String))
    (stdin1 stdin2 : String) (net1 net2 : Request → PyResult Response) :
    TestChatApi.run argv1 env1 stdin1 net1 = TestChatApi.run argv2 env2 stdin2 net1 ∧
    TestImessageConversion.run argv1 env1 stdin1 net1 =
      TestImessageConversion.run argv2 env2 stdin2 net1 ∧
    (TestChatApi.run argv1 env1 stdin1 net1).requestsSent =
      (TestChatApi.run argv2 env2 stdin2 net2).requestsSent ∧
    (TestImessageConversion.run argv1 env1 stdin1 net1).requestsSent =
      (TestImessageConversion.run argv2 env2 stdin2 net2).requestsSent ∧
    (net1 TestChatApi.request = net2 TestChatApi.request →
      TestChatApi.run argv1 env1 stdin1 net1 = TestChatApi.run argv2 env2 stdin2 net2) ∧
    (net1 TestImessageConversion.request = net2 TestImessageConversion.request →
      TestImessageConversion.run argv1 env1 stdin1 net1 =
        TestImessageConversion.run argv2 env2 stdin2 net2) := by
  refine ⟨rfl, rfl, ?_, ?_, ?_, ?_⟩
  · rw [TestChatApi.run, TestChatApi.run]
    cases net1 TestChatApi.request <;> cases net2 TestChatApi.request <;> rfl
  · rw [TestImessageConversion.run, TestImessageConversion.run]
    cases net1 TestImessageConversion.request <;> cases net2 TestImessageConversion.request <;> rfl
  · intro h
    rw [TestChatApi.run, TestChatApi.run, h]
  · intro h
    rw [TestImessageConversion.run, TestImessageConversion.run, h]

/-- Witness for C8: two runs with different command lines, environments
and inputs but the same network answer produce identical results. -/
theorem claim_C8_witness :
    ((fun _ => PyResult.raised "unreachable" : Request → PyResult Response) TestChatApi.request =
      (fun _ => PyResult.raised "unreachable" : Request → PyResult Response) TestChatApi.request) ∧
    TestChatApi.run [] [] "" (fun _ => PyResult.raised "unreachable") =
      TestChatApi.run ["arg"] [("HOME", "h")] "input" (fun _ => PyResult.raised "unreachable") :=
  ⟨rfl, (claim_C8 [] ["arg"] [] [("HOME", "h")] "" "input"
    (fun _ => PyResult.raised "unreachable") (fun _ => PyResult.raised "unreachable")).2.2.2.2.1 rfl⟩

/-- Claim C9: both scripts are instances of the same one-shot sender:
abstracting the payload, each script's whole behaviour equals `sendOnce`
applied to its payload constant. -/
theorem claim_C9 (argv : List String) (env : List (String × String)) (stdin : String)
    (net : Request → PyResult Response) :
    TestChatApi.run argv env stdin net = sendOnce TestChatApi.payload argv env stdin net ∧
    TestImessageConversion.run argv env stdin net =
      sendOnce TestImessageConversion.payload argv env stdin net :=
  ⟨rfl, rfl⟩

/-- Claim C10: the body the first script sends is exactly the JSON text
with keys in insertion order `userId`, `message`, `systemPrompt` and the
default `", "` and `": "` separators. -/
theorem claim_C10 :
    TestChatApi.request.body =
      "\x7b\"userId\": \"user-123\", \"message\": \"Hello, this is a test message to verify IMessage conversion\", \"systemPrompt\": \"You are a helpful assistant.\"\x7d" := by
  decide
